import Mathlib

/-!
Shallow embedding of the proximus-mcp server (src/server.js).

The repository contains two variants of the same service in one file:
  * a WebSocket / JSON-RPC 2.0 variant (lines 1-259): upgrade gate with
    optional bearer/query-key auth, a per-message JSON-RPC dispatcher with
    methods initialize, tools/list, tools/call, ping, and two tools
    (proximus.kpis, proximus.records) that fetch rows from an upstream
    demo API and either aggregate them (computeKpis) or slice them;
  * a plain HTTP variant (lines 260-346): an Express `auth` middleware
    (bearer header + crypto.timingSafeEqual) in front of a POST /query
    handler with resources kpis and records.

Modelling conventions:
  * The upstream HTTP data source is external to the repository; it is
    modelled as a function from the query string the code builds to a
    response (status, body text, parsed JSON rows).  The code under src/
    never inspects the network beyond that.
  * JS numbers that the code only adds and divides (latency_ms) are
    modelled as exact rationals; limits flow through parseInt and are
    modelled as integers.
  * JS truthiness on the strings the code tests (`if (filters.country)`,
    `if (!name)`, `if (!tok)`) is modelled by treating the empty string
    as falsy; absent fields are `none`.
  * Sending a JSON-RPC response is the only effect of the WS message
    handler; it is modelled by the returned `Option RpcOut` (`none` =
    nothing is sent).  The handler never closes the socket.
-/

/-- A data row as consumed by the server: only `country`, `status` and
`latency_ms` are ever read by the code; `id` and `carrier` are carried
verbatim. -/
structure Row where
  id : Nat
  country : String
  carrier : String
  status : String
  latency_ms : ℚ
deriving Repr, DecidableEq

/-- A JSON-RPC id: number, string or null; an absent id is `Option.none`
at the use sites. -/
inductive JsonId where
  | num (n : Int)
  | str (s : String)
  | null
deriving Repr, DecidableEq

/-- The filters object built by the tools/call handler (src/server.js
lines 191-193): fields are set only when the corresponding argument is
truthy. -/
structure Filters where
  country : Option String
  status : Option String
deriving Repr, DecidableEq

/-- The `arguments` object of a tools/call request.  `limit` holds the
JS string conversion of the supplied limit value (parseInt stringifies
its argument); `none` means the field is absent. -/
structure Args where
  country : Option String
  status : Option String
  limit : Option String
deriving Repr, DecidableEq

/-- The `params` object of a tools/call request. -/
structure ToolParams where
  name : Option String
  arguments : Args
deriving Repr, DecidableEq

/-- The upstream response as seen by the code: HTTP status, body text
(read on the error path) and the parsed JSON row array (read on the ok
path). -/
structure UpstreamResp where
  status : Nat
  body : String
  rows : List Row
deriving Repr, DecidableEq

/-- The KPI aggregate of computeKpis (src/server.js lines 94-101). -/
structure Kpis where
  total : Nat
  delivered : Nat
  failed : Nat
  blocked : Nat
  avgLatency : ℚ
deriving Repr, DecidableEq

/-- The result payloads the WS handler can send.  The kpis/records
payloads carry the `data` field of the JSON-RPC result (the text content
is its stringification). -/
inductive RpcResult where
  | initializeRes
  | toolsListRes
  | kpisRes (k : Kpis)
  | recordsRes (rows : List Row)
  | pingRes
deriving Repr, DecidableEq

/-- A serialized JSON-RPC response: jsonrpcResult or jsonrpcError
(src/server.js lines 61-66).  `data` is the optional diagnostic string
of an error. -/
inductive RpcOut where
  | result (id : Option JsonId) (res : RpcResult)
  | error (id : Option JsonId) (code : Int) (message : String) (data : Option String)
deriving Repr, DecidableEq

/-- An inbound WS frame after the JSON.parse attempt: `malformed` is a
frame that is not valid JSON, otherwise the destructured id / method /
params (src/server.js lines 112-122). -/
inductive Inbound where
  | malformed
  | parsed (id : Option JsonId) (method : Option String) (params : Option ToolParams)
deriving Repr, DecidableEq

/-- Outcome of the HTTP upgrade handler (src/server.js lines 35-58). -/
inductive UpgradeResult where
  | accept
  | reject401
  | destroyed
deriving Repr, DecidableEq

/-- Outcome of the Express auth middleware (src/server.js lines
280-289).  `thrown` models a synchronous exception escaping the
middleware (crypto.timingSafeEqual on buffers of different length),
which Express surfaces as a 500 response. -/
inductive HttpAuthResult where
  | next
  | unauthorized (msg : String)
  | thrown
deriving Repr, DecidableEq

/-- Response of the POST /query handler (src/server.js lines 293-342):
either a 200 with kpis or records data, or a JSON error with an HTTP
status and an optional details string. -/
inductive QueryOut where
  | ok200kpis (k : Kpis)
  | ok200records (rows : List Row)
  | err (status : Nat) (error : String) (details : Option String)
deriving Repr, DecidableEq

/-- Response of the /query endpoint including the auth middleware. -/
inductive HttpResponse where
  | unauthorized (msg : String)
  | serverError
  | out (q : QueryOut)
deriving Repr, DecidableEq

/-- Is `needle` a leading segment of the second list?  Used to model
String.prototype.startsWith on character lists. -/
def charsLead : List Char → List Char → Bool
  | [], _ => true
  | _ :: _, [] => false
  | a :: as, b :: bs => a == b && charsLead as bs

/-- Does the list contain `needle` as a contiguous segment? -/
def charsContain (needle : List Char) : List Char → Bool
  | [] => needle.isEmpty
  | c :: tl => charsLead needle (c :: tl) || charsContain needle tl

/-- JS s.startsWith(pre). -/
def strLead (pre s : String) : Bool :=
  charsLead pre.toList s.toList

/-- JS s.includes(needle); used only to state that a diagnostic string
carries a piece of information. -/
def strContains (hay needle : String) : Bool :=
  charsContain needle.toList hay.toList

/-- JS s.slice(n) for ASCII strings (drop the first n characters). -/
def strDrop (s : String) (n : Nat) : String :=
  ⟨s.toList.drop n⟩

/-- Value of a decimal digit character. -/
def digitVal (c : Char) : Nat := c.toNat - 48

/-- ECMAScript parseInt(s, 10): skip leading whitespace, read an
optional sign and then leading decimal digits; `none` is NaN (no digit
found). -/
def jsParseInt (s : String) : Option Int :=
  let cs := s.toList.dropWhile (fun c => c == ' ' || c == '\t' || c == '\n' || c == '\r')
  match cs with
  | '-' :: rest =>
    let ds := rest.takeWhile Char.isDigit
    if ds.isEmpty then none
    else some (-(↑(ds.foldl (fun a c => a * 10 + digitVal c) 0) : Int))
  | '+' :: rest =>
    let ds := rest.takeWhile Char.isDigit
    if ds.isEmpty then none
    else some ((↑(ds.foldl (fun a c => a * 10 + digitVal c) 0) : Int))
  | _ =>
    let ds := cs.takeWhile Char.isDigit
    if ds.isEmpty then none
    else some ((↑(cs.takeWhile Char.isDigit |>.foldl (fun a c => a * 10 + digitVal c) 0) : Int))

/-- asNumber (src/server.js lines 67-70): parseInt the value, fall back
to the default when the result is NaN.  `none` models an absent value
(parseInt of undefined is NaN). -/
def asNumber (n : Option String) (d : Int) : Int :=
  match n with
  | none => d
  | some s => (jsParseInt s).getD d

/-- JS truthiness filter for optional string fields: an absent or empty
string is dropped. -/
def truthyStr : Option String → Option String
  | none => none
  | some s => if s = "" then none else some s

/-- The `filters` object built from tools/call arguments (src/server.js
lines 191-193): a field is set only when the argument is truthy. -/
def normalizeFilters (a : Args) : Filters :=
  ⟨truthyStr a.country, truthyStr a.status⟩

/-- The country/status entries of the URLSearchParams, in insertion
order; an entry is added only when the value is truthy (src/server.js
lines 76-77 and 303-304). -/
def queryParts (country status : Option String) : List String :=
  (match truthyStr country with
   | some c => ["country=" ++ c]
   | none => []) ++
  (match truthyStr status with
   | some s => ["status=" ++ s]
   | none => [])

/-- URLSearchParams.toString: parts joined by ampersands. -/
def joinAmp : List String → String
  | [] => ""
  | [p] => p
  | p :: rest => p ++ "&" ++ joinAmp rest

/-- The query string fetchRows appends to the upstream URL: country and
status when truthy, then always the limit (src/server.js lines 75-79). -/
def buildQuery (f : Filters) (limit : Int) : String :=
  joinAmp (queryParts f.country f.status ++ ["limit=" ++ toString limit])

/-- The query string the /query handler appends: country and status when
truthy, and no limit parameter (src/server.js lines 302-305). -/
def buildQueryNoLimit (country status : Option String) : String :=
  joinAmp (queryParts country status)

/-- Response.ok of the fetch API: HTTP status in the 2xx range. -/
def respOk (status : Nat) : Prop := 200 ≤ status ∧ status ≤ 299

instance (status : Nat) : Decidable (respOk status) := by
  unfold respOk; exact inferInstance

/-- fetchRows (src/server.js lines 73-92): fail if DEMO_API_URL is
unset, otherwise request the upstream with the built query string; a
non-2xx response becomes an Error carrying the upstream status and body
text, a 2xx response yields the parsed rows.  `u` is the external
upstream, a function of the query string. -/
def fetchRows (u : String → UpstreamResp) (demoApiUrlSet : Bool) (f : Filters)
    (limit : Int) : Except String (List Row) :=
  if demoApiUrlSet then
    let resp := u (buildQuery f limit)
    if respOk resp.status then .ok resp.rows
    else .error ("Demo upstream " ++ toString resp.status ++ ": " ++ resp.body)
  else .error "DEMO_API_URL not set"

/-- Round a positive rational to 53 significant bits, to nearest with
ties to even: scale into the binade [2^52, 2^53), round the scaled
value to an integer, and scale back. -/
def roundPos53 (q : ℚ) : ℚ :=
  let k : ℤ := Int.log 2 q
  let s : ℚ := q * (2:ℚ) ^ (52 - k)
  let f : ℤ := ⌊s⌋
  let r : ℚ := s - (f : ℚ)
  let m : ℤ :=
    if r < 1/2 then f
    else if 1/2 < r then f + 1
    else if f % 2 = 0 then f else f + 1
  (m : ℚ) * (2:ℚ) ^ (k - 52)

/-- The rounding of an IEEE-754 binary64 arithmetic result, the number
type of the source language: round to nearest, ties to even, for
finite values in the normal range (subnormal rounding and overflow to
infinity are not modelled; the magnitudes this server computes with are
far inside the normal range). -/
def round64 (q : ℚ) : ℚ :=
  if q = 0 then 0
  else if 0 < q then roundPos53 q
  else -(roundPos53 (-q))

/-- A JS `+` on numbers: exact addition followed by binary64
rounding. -/
def jsAdd (a b : ℚ) : ℚ := round64 (a + b)

/-- computeKpis (src/server.js lines 94-101): counts by status over the
whole argument list and the mean latency, 0 when the list is empty.
The reduce accumulates with the rounding JS `+`, and the final `/` is
the rounding binary64 division of the accumulated sum by the exact
integer count. -/
def computeKpis (rows : List Row) : Kpis :=
  let total := rows.length
  let delivered := (rows.filter (fun r => r.status == "DELIVERED")).length
  let failed := (rows.filter (fun r => r.status == "FAILED")).length
  let blocked := (rows.filter (fun r => r.status == "BLOCKED")).length
  let avgLatency : ℚ :=
    if total = 0 then 0
    else round64 ((rows.foldl (fun a b => jsAdd a b.latency_ms) 0) / (total : ℚ))
  ⟨total, delivered, failed, blocked, avgLatency⟩

/-- JS Array.prototype.slice(0, e): a negative end counts back from the
length, a positive end is clamped to the length. -/
def sliceZero {α : Type} (l : List α) (e : Int) : List α :=
  let len : Int := l.length
  let stop := if e < 0 then max (len + e) 0 else min e len
  l.take stop.toNat

/-- The default limit chosen at src/server.js line 194: 1000 for
proximus.kpis, 200 otherwise. -/
def defaultLimit (name : Option String) : Int :=
  if name = some "proximus.kpis" then 1000 else 200

/-- The tools/call block of the WS message handler (src/server.js lines
183-237): reject a falsy name, normalize filters and limit, run the kpis
or records tool, or report an unknown tool; a throw from fetchRows is
converted by the surrounding catch into a -32000 error carrying the
message (line 248). -/
def toolsCall (u : String → UpstreamResp) (demoApiUrlSet : Bool)
    (id : Option JsonId) (p : ToolParams) : RpcOut :=
  if p.name = none ∨ p.name = some "" then
    .error id (-32602) "Tool name missing" none
  else
    let filters := normalizeFilters p.arguments
    let limit := asNumber p.arguments.limit (defaultLimit p.name)
    if p.name = some "proximus.kpis" then
      match fetchRows u demoApiUrlSet filters limit with
      | .ok rows => .result id (.kpisRes (computeKpis rows))
      | .error e => .error id (-32000) "Internal error" (some e)
    else if p.name = some "proximus.records" then
      match fetchRows u demoApiUrlSet filters limit with
      | .ok rows => .result id (.recordsRes (sliceZero rows limit))
      | .error e => .error id (-32000) "Internal error" (some e)
    else
      .error id (-32601) ("Unknown tool: " ++ p.name.getD "") none

/-- The WS message handler (src/server.js lines 112-250): a frame that
is not JSON, or whose parse has no method, is dropped with no response;
otherwise dispatch on the method.  The returned value is the response
frame sent on the socket (`none` = nothing sent); the handler never
closes the connection. -/
def handleMessage (u : String → UpstreamResp) (demoApiUrlSet : Bool)
    (m : Inbound) : Option RpcOut :=
  match m with
  | .malformed => none
  | .parsed id method params =>
    match method with
    | none => none
    | some meth =>
      if meth = "initialize" then some (.result id .initializeRes)
      else if meth = "tools/list" then some (.result id .toolsListRes)
      else if meth = "tools/call" then
        some (toolsCall u demoApiUrlSet id (params.getD ⟨none, ⟨none, none, none⟩⟩))
      else if meth = "ping" then some (.result id .pingRes)
      else some (.error id (-32601) ("Unknown method: " ++ meth) none)

/-- The token of the WS upgrade gate (src/server.js line 46): the bearer
token of the authorization header when present, otherwise the key query
parameter, otherwise empty. -/
def wsToken (authHeader : String) (queryKey : Option String) : String :=
  if strLead "Bearer " authHeader then strDrop authHeader 7 else queryKey.getD ""

/-- The upgrade handler (src/server.js lines 35-58): destroy sockets on
a wrong path; when MCP_REQUIRE_KEY is set, accept exactly when the token
is truthy and equals the configured MCP_API_KEY (a null key accepts
nothing); a rejected socket gets a bare 401 and is destroyed before any
protocol message is read. -/
def upgradeHandler (pathname : String) (requireKey : Bool)
    (mcpApiKey : Option String) (authHeader : String)
    (queryKey : Option String) : UpgradeResult :=
  if pathname ≠ "/mcp" then .destroyed
  else if requireKey then
    let token := wsToken authHeader queryKey
    if token ≠ "" ∧ mcpApiKey = some token then .accept else .reject401
  else .accept

/-- The bearer token of the HTTP auth middleware (src/server.js lines
282-283): only the Authorization header is consulted, there is no query
parameter fallback. -/
def httpToken (authHeader : String) : String :=
  if strLead "Bearer " authHeader then strDrop authHeader 7 else ""

/-- crypto.timingSafeEqual on Buffer.from of two ASCII strings: throws a
RangeError when the byte lengths differ, otherwise reports equality. -/
def timingSafeEqualJs (a b : String) : Except Unit Bool :=
  if a.toList.length = b.toList.length then .ok (a == b) else .error ()

/-- The Express auth middleware (src/server.js lines 280-289): pass when
no key is required; 401 when the token or the configured key is falsy;
otherwise compare with crypto.timingSafeEqual, whose RangeError on a
length mismatch escapes the middleware (`thrown`, surfaced by Express as
a 500, not a 401). -/
def auth (requireKey : Bool) (mcpApiKey : Option String)
    (authHeader : String) : HttpAuthResult :=
  if requireKey then
    let tok := httpToken authHeader
    if tok = "" ∨ mcpApiKey = none then .unauthorized "missing/invalid token"
    else
      match timingSafeEqualJs tok (mcpApiKey.getD "") with
      | .ok true => .next
      | .ok false => .unauthorized "unauthorized"
      | .error _ => .thrown
  else .next

/-- The POST /query handler body (src/server.js lines 293-342): 500 when
DEMO_API_URL is unset, 400 on a falsy resource, then one upstream fetch
with country/status (and no limit) in the query string; a non-2xx
upstream response yields a 502 whose details field is the upstream body
text; a 2xx response is dispatched on the resource, records being
sliced to the fixed count 200. -/
def queryHandler (u : String → UpstreamResp) (demoApiUrlSet : Bool)
    (resource country status : Option String) : QueryOut :=
  if demoApiUrlSet then
    match resource with
    | none => .err 400 "resource is required" none
    | some r =>
      if r = "" then .err 400 "resource is required" none
      else
        let resp := u (buildQueryNoLimit country status)
        if respOk resp.status then
          let rows := resp.rows
          if r = "kpis" then .ok200kpis (computeKpis rows)
          else if r = "records" then .ok200records (sliceZero rows 200)
          else .err 400 "unknown resource" (some r)
        else .err 502 "upstream demo error" (some resp.body)
  else .err 500 "DEMO_API_URL not set" none

/-- The /query endpoint as mounted: auth middleware first, then the
handler; an unauthorized result stops the chain before the handler (and
hence before any upstream fetch), a throw becomes a 500. -/
def queryEndpoint (requireKey : Bool) (mcpApiKey : Option String)
    (authHeader : String) (u : String → UpstreamResp) (demoApiUrlSet : Bool)
    (resource country status : Option String) : HttpResponse :=
  match auth requireKey mcpApiKey authHeader with
  | .next => .out (queryHandler u demoApiUrlSet resource country status)
  | .unauthorized m => .unauthorized m
  | .thrown => .serverError

/-- An upstream that returns the same response to every request. -/
def constUpstream (r : UpstreamResp) : String → UpstreamResp :=
  fun _ => r

/-- Modelled from the spec: the row-by-row equality filter the spec
describes in section 4.3 ("an equality filter is applied row-by-row,
string equality on country/status"); absent filter fields match every
row.  The source contains no such post-fetch filter, so this definition
follows the spec wording and is compared against what the code does. -/
def matchesFilter (f : Filters) (r : Row) : Bool :=
  (match f.country with
   | none => true
   | some c => r.country == c) &&
  (match f.status with
   | none => true
   | some s => r.status == s)

/-! ### Concrete fixtures used by counterexamples and witnesses -/

/-- A delivered row for country FR. -/
def rowFR : Row := ⟨1, "FR", "Orange", "DELIVERED", 50⟩

/-- Five delivered rows, the master data of a small upstream. -/
def masterRows : List Row :=
  [⟨1, "BE", "Proximus", "DELIVERED", 100⟩,
   ⟨2, "BE", "Proximus", "DELIVERED", 120⟩,
   ⟨3, "BE", "Proximus", "DELIVERED", 80⟩,
   ⟨4, "BE", "Proximus", "DELIVERED", 90⟩,
   ⟨5, "BE", "Proximus", "DELIVERED", 110⟩]

/-- An upstream that honours the limit query parameter over
`masterRows`, in the way the spec upstream contract describes (the
limit is one of the query parameters the upstream receives): a request
carrying limit=2 gets the first two rows, any other request gets all
five. -/
def limitingUpstream : String → UpstreamResp :=
  fun q => if q = "limit=2" then ⟨200, "", masterRows.take 2⟩ else ⟨200, "", masterRows⟩

/-- Two rows with latencies 10 and 20, whose exact mean 15 is a
binary64 value. -/
def twoRows : List Row :=
  [⟨1, "BE", "Proximus", "DELIVERED", 10⟩, ⟨2, "BE", "Proximus", "FAILED", 20⟩]

/-- Three rows with latencies 1, 1 and 2, whose exact mean 4/3 is not a
binary64 value. -/
def threeRows : List Row :=
  [⟨1, "BE", "Proximus", "DELIVERED", 1⟩,
   ⟨2, "BE", "Proximus", "DELIVERED", 1⟩,
   ⟨3, "BE", "Proximus", "DELIVERED", 2⟩]

/-! ### Helper lemmas -/

theorem handleMessage_call (u : String → UpstreamResp) (d : Bool)
    (id : Option JsonId) (p : ToolParams) :
    handleMessage u d (.parsed id (some "tools/call") (some p)) =
      some (toolsCall u d id p) := rfl

theorem fetchRows_const (r : UpstreamResp) (f : Filters) (limit : Int) :
    fetchRows (constUpstream r) true f limit =
      (if respOk r.status then .ok r.rows
       else .error ("Demo upstream " ++ toString r.status ++ ": " ++ r.body)) := rfl

theorem list_take_min {α : Type} (l : List α) (n : Nat) :
    l.take (min n l.length) = l.take n := by
  rcases le_total n l.length with h | h
  · rw [min_eq_left h]
  · rw [min_eq_right h, List.take_length, List.take_of_length_le h]

theorem sliceZero_nonneg {α : Type} (l : List α) (e : Int) (he : 0 ≤ e) :
    sliceZero l e = l.take e.toNat := by
  unfold sliceZero
  dsimp only
  rw [if_neg (by omega)]
  rcases le_total e (l.length : Int) with h | h
  · rw [min_eq_left h]
  · rw [min_eq_right h]
    have h1 : ((l.length : Int)).toNat = l.length := by omega
    have h2 : l.length ≤ e.toNat := by omega
    rw [h1, List.take_length, List.take_of_length_le h2]

/-- Binary64 rounding is the identity on natural numbers below 2^53
(53-bit integers are exactly representable). -/
theorem round64_natCast (n : ℕ) (h : n < 2 ^ 53) : round64 (n : ℚ) = n := by
  rcases Nat.eq_zero_or_pos n with h0 | h0
  · subst h0; simp [round64]
  · have hq : (0:ℚ) < n := by exact_mod_cast h0
    unfold round64
    rw [if_neg (by positivity), if_pos hq]
    unfold roundPos53
    dsimp only
    rw [Int.log_natCast]
    have hk52 : Nat.log 2 n ≤ 52 := by
      have h1 : 2 ^ Nat.log 2 n ≤ n := Nat.pow_log_le_self 2 (by omega)
      by_contra hgt
      have h2 : (2:ℕ) ^ 53 ≤ 2 ^ Nat.log 2 n := Nat.pow_le_pow_right (by norm_num) (by omega)
      omega
    set k := Nat.log 2 n with hkdef
    have hcast : ((52 : ℤ) - (k : ℤ)) = ((52 - k : ℕ) : ℤ) := by omega
    rw [hcast, zpow_natCast]
    have hs : (n : ℚ) * (2:ℚ) ^ (52 - k) = ((n * 2 ^ (52 - k) : ℕ) : ℚ) := by push_cast; ring
    rw [hs, Int.floor_natCast]
    rw [if_pos (by push_cast; norm_num :
      ((n * 2 ^ (52 - k) : ℕ) : ℚ) - (((n * 2 ^ (52 - k) : ℕ) : ℤ) : ℚ) < 1/2)]
    have hexp : ((k : ℤ) - 52) = -(((52 - k : ℕ) : ℤ)) := by omega
    rw [hexp, zpow_neg, zpow_natCast]
    push_cast
    rw [mul_assoc, mul_inv_cancel₀ (by positivity), mul_one]

/-- The rounding JS summation of natural-valued latencies is exact as
long as the running total stays below 2^53, for any start value. -/
theorem jsSum_exact_aux : ∀ (l : List Row) (a : ℕ),
    (∀ r ∈ l, ∃ n : ℕ, r.latency_ms = (n : ℚ)) →
    ((a : ℚ) + (l.map Row.latency_ms).sum < (2:ℚ) ^ 53) →
    l.foldl (fun x b => jsAdd x b.latency_ms) ((a : ℚ)) =
      (a : ℚ) + (l.map Row.latency_ms).sum := by
  intro l
  induction l with
  | nil => intro a _ _; simp
  | cons hd tl ih =>
    intro a hmem hbound
    obtain ⟨n, hn⟩ := hmem hd (by simp)
    have htlmem : ∀ r ∈ tl, ∃ m : ℕ, r.latency_ms = (m : ℚ) := by
      intro r hr; exact hmem r (by simp [hr])
    have htlnonneg : (0:ℚ) ≤ (tl.map Row.latency_ms).sum := by
      apply List.sum_nonneg
      intro x hx
      simp only [List.mem_map] at hx
      obtain ⟨r, hr, hrx⟩ := hx
      obtain ⟨m, hm⟩ := htlmem r hr
      rw [← hrx, hm]
      positivity
    have hsumcons : ((hd :: tl).map Row.latency_ms).sum =
        hd.latency_ms + (tl.map Row.latency_ms).sum := by simp
    have hbound2 : ((a + n : ℕ) : ℚ) < (2:ℚ) ^ 53 := by
      rw [hsumcons, hn] at hbound
      push_cast
      linarith
    have hb53 : (a + n) < 2 ^ 53 := by
      have h2 : ((2:ℚ) ^ 53) = ((2 ^ 53 : ℕ) : ℚ) := by push_cast; ring
      rw [h2] at hbound2
      exact_mod_cast hbound2
    have hstep : jsAdd ((a:ℚ)) hd.latency_ms = ((a + n : ℕ) : ℚ) := by
      rw [jsAdd, hn]
      rw [show ((a:ℚ) + (n:ℚ)) = ((a + n : ℕ) : ℚ) from by push_cast; ring]
      exact round64_natCast (a + n) hb53
    rw [List.foldl_cons, hstep, ih (a + n) htlmem
      (by rw [hsumcons, hn] at hbound; push_cast at hbound ⊢; linarith)]
    rw [hsumcons, hn]
    push_cast
    ring

/-- The reduce of computeKpis equals the exact latency sum when every
latency is a natural number and the sum stays below 2^53 (the data
model of the spec: non-negative integer latencies). -/
theorem jsSum_exact (rows : List Row)
    (hmem : ∀ r ∈ rows, ∃ n : ℕ, r.latency_ms = (n : ℚ))
    (hsum : (rows.map Row.latency_ms).sum < (2:ℚ) ^ 53) :
    rows.foldl (fun a b => jsAdd a b.latency_ms) 0 =
      (rows.map Row.latency_ms).sum := by
  have h := jsSum_exact_aux rows 0 hmem (by simpa using hsum)
  simpa using h

/-- The binary64 division of 4 by 3: the double nearest 4/3, which
differs from the exact rational 4/3. -/
theorem round64_four_thirds :
    round64 ((4:ℚ)/3) = (6004799503160661 : ℚ) / 4503599627370496 := by
  have hpos : (0:ℚ) < 4/3 := by norm_num
  unfold round64
  rw [if_neg (by norm_num), if_pos hpos]
  unfold roundPos53
  dsimp only
  have hlog : Int.log 2 ((4:ℚ)/3) = 0 := by
    have h0 : (0:ℤ) ≤ Int.log 2 ((4:ℚ)/3) := by
      rw [← Int.zpow_le_iff_le_log (by norm_num) (by norm_num)]
      norm_num
    have h1 : Int.log 2 ((4:ℚ)/3) < 1 := by
      rw [← Int.lt_zpow_iff_log_lt (by norm_num) (by norm_num)]
      norm_num
    omega
  rw [hlog]
  have hs : (4:ℚ)/3 * (2:ℚ) ^ ((52:ℤ) - 0) = 18014398509481984/3 := by
    norm_num
  rw [hs]
  have hf : ⌊(18014398509481984:ℚ)/3⌋ = 6004799503160661 := by
    rw [Int.floor_eq_iff]
    norm_num
  rw [hf]
  rw [if_pos (by norm_num :
    (18014398509481984:ℚ)/3 - ((6004799503160661:ℤ):ℚ) < 1/2)]
  have hexp : ((0:ℤ) - 52) = -(52:ℤ) := by norm_num
  rw [hexp, zpow_neg]
  norm_num

/-- The rounding JS sum over threeRows evaluates to the exact 4. -/
theorem threeRows_jsSum :
    threeRows.foldl (fun a b => jsAdd a b.latency_ms) 0 = 4 := by
  have h := jsSum_exact threeRows
    (by intro r hr
        fin_cases hr
        · exact ⟨1, by norm_num⟩
        · exact ⟨1, by norm_num⟩
        · exact ⟨2, by norm_num⟩)
    (by norm_num [threeRows])
  rw [h]
  norm_num [threeRows]

/-! ### Claim theorems -/

/-- Claim C5 (counterexample): the claim says avgLatency equals
sum(latency_ms)/|R| exactly for every non-empty R.  The program divides
in IEEE-754 binary64: for latencies 1, 1, 2 the sum 4 is exact but the
quotient 4/3 is not representable, so avgLatency is the nearest double
6004799503160661/2^52, which differs from the exact mean 4/3. -/
theorem c5_float_division_counterexample :
    (computeKpis threeRows).avgLatency =
      (6004799503160661 : ℚ) / 4503599627370496 ∧
    (computeKpis threeRows).avgLatency ≠
      ((threeRows.map Row.latency_ms).sum) / ((threeRows.length : ℚ)) := by
  have havg : (computeKpis threeRows).avgLatency = round64 ((4:ℚ)/3) := by
    unfold computeKpis
    dsimp only
    rw [if_neg (by norm_num [threeRows]), threeRows_jsSum]
    norm_num [threeRows]
  have hmean : ((threeRows.map Row.latency_ms).sum) / ((threeRows.length : ℚ)) =
      (4:ℚ)/3 := by
    norm_num [threeRows]
  constructor
  · rw [havg, round64_four_thirds]
  · rw [havg, round64_four_thirds, hmean]
    norm_num

/-- Claim C5 (amended): avgLatency is 0 on the empty set; for non-empty
R with natural-number latencies summing below 2^53 (the data model of
the spec), the summation is exact and avgLatency is the binary64
round-to-nearest of sum(latency_ms)/|R| — the correctly rounded double
quotient, not in general the exact rational mean; it does equal the
exact mean whenever that mean is itself representable, in particular
whenever it is a natural number below 2^53. -/
theorem c5_avg_latency_rounded_mean :
    (computeKpis []).avgLatency = 0 ∧
    (∀ rows : List Row, rows ≠ [] →
      (∀ r ∈ rows, ∃ n : ℕ, r.latency_ms = (n : ℚ)) →
      (rows.map Row.latency_ms).sum < (2:ℚ) ^ 53 →
      (computeKpis rows).avgLatency =
        round64 (((rows.map Row.latency_ms).sum) / ((rows.length : ℚ)))) ∧
    (∀ rows : List Row, rows ≠ [] →
      (∀ r ∈ rows, ∃ n : ℕ, r.latency_ms = (n : ℚ)) →
      (rows.map Row.latency_ms).sum < (2:ℚ) ^ 53 →
      ∀ m : ℕ, m < 2 ^ 53 →
      ((rows.map Row.latency_ms).sum) / ((rows.length : ℚ)) = (m : ℚ) →
      (computeKpis rows).avgLatency =
        ((rows.map Row.latency_ms).sum) / ((rows.length : ℚ))) := by
  have key : ∀ rows : List Row, rows ≠ [] →
      (∀ r ∈ rows, ∃ n : ℕ, r.latency_ms = (n : ℚ)) →
      (rows.map Row.latency_ms).sum < (2:ℚ) ^ 53 →
      (computeKpis rows).avgLatency =
        round64 (((rows.map Row.latency_ms).sum) / ((rows.length : ℚ))) := by
    intro rows hne hmem hsum
    have hlen : rows.length ≠ 0 := by simpa [List.length_eq_zero] using hne
    unfold computeKpis
    dsimp only
    rw [if_neg hlen, jsSum_exact rows hmem hsum]
  refine ⟨rfl, key, ?_⟩
  intro rows hne hmem hsum m hm hmean
  rw [key rows hne hmem hsum, hmean, round64_natCast m hm]

/-- Witness for the amended C5: the rounded-mean equation at the
three-row set with mean 4/3, and the exact-mean special case at a
two-row set with mean 15. -/
theorem c5_avg_latency_rounded_mean_witness :
    (computeKpis threeRows).avgLatency =
      round64 (((threeRows.map Row.latency_ms).sum) / ((threeRows.length : ℚ))) ∧
    (computeKpis twoRows).avgLatency =
      ((twoRows.map Row.latency_ms).sum) / ((twoRows.length : ℚ)) :=
  ⟨c5_avg_latency_rounded_mean.2.1 threeRows (by decide)
      (by intro r hr
          fin_cases hr
          · exact ⟨1, by norm_num⟩
          · exact ⟨1, by norm_num⟩
          · exact ⟨2, by norm_num⟩)
      (by norm_num [threeRows]),
   c5_avg_latency_rounded_mean.2.2 twoRows (by decide)
      (by intro r hr
          fin_cases hr
          · exact ⟨10, by norm_num⟩
          · exact ⟨20, by norm_num⟩)
      (by norm_num [twoRows]) 15 (by norm_num)
      (by norm_num [twoRows])⟩

/-- Claim C7 (confirmed): a tools/call for proximus.records whose fetch
yields `rows` returns exactly the first `limit` of those rows in fetch
order, verbatim, for every non-negative effective limit. -/
theorem c7_records_first_limit_rows :
    ∀ (u : String → UpstreamResp) (id : Option JsonId) (args : Args) (rows : List Row),
    fetchRows u true (normalizeFilters args) (asNumber args.limit 200) = .ok rows →
    0 ≤ asNumber args.limit 200 →
    handleMessage u true (.parsed id (some "tools/call")
        (some ⟨some "proximus.records", args⟩)) =
      some (.result id (.recordsRes (rows.take (asNumber args.limit 200).toNat))) := by
  intro u id args rows hfetch hle
  rw [handleMessage_call]
  simp only [toolsCall, defaultLimit]
  simp [hfetch, sliceZero_nonneg rows (asNumber args.limit 200) hle]

/-- Witness for C7: limit 2 over 5 matching rows returns exactly the
first 2 in fetch order. -/
theorem c7_records_first_limit_rows_witness :
    handleMessage (constUpstream ⟨200, "", masterRows⟩) true
        (.parsed (some (.num 7)) (some "tools/call")
          (some ⟨some "proximus.records", ⟨none, none, some "2"⟩⟩)) =
      some (.result (some (.num 7)) (.recordsRes (masterRows.take 2))) := by
  have h := c7_records_first_limit_rows (constUpstream ⟨200, "", masterRows⟩)
    (some (.num 7)) ⟨none, none, some "2"⟩ masterRows rfl (by decide)
  exact h

/-- Claim C8 (confirmed): an inbound frame that is not valid JSON, or
whose parse lacks a method, draws no response of any kind; the handler
codomain contains no connection-closing action, so the connection is
untouched. -/
theorem c8_malformed_dropped_silently :
    ∀ (u : String → UpstreamResp) (d : Bool) (id : Option JsonId)
      (p : Option ToolParams),
    handleMessage u d .malformed = none ∧
    handleMessage u d (.parsed id none p) = none :=
  fun _ _ _ _ => ⟨rfl, rfl⟩

/-- Claim C9 (confirmed): a tools/call whose truthy name matches no
known tool is answered by a JSON-RPC error with the method-not-found
code -32601 and the request id passed through unchanged, never a
success result. -/
theorem c9_unknown_tool_error :
    ∀ (u : String → UpstreamResp) (d : Bool) (id : Option JsonId)
      (args : Args) (name : Option String),
    name ≠ none → name ≠ some "" →
    name ≠ some "proximus.kpis" → name ≠ some "proximus.records" →
    handleMessage u d (.parsed id (some "tools/call") (some ⟨name, args⟩)) =
      some (.error id (-32601) ("Unknown tool: " ++ name.getD "") none) := by
  intro u d id args name h1 h2 h3 h4
  rw [handleMessage_call]
  simp [toolsCall, h1, h2, h3, h4]

/-- Witness for C9 at a concrete unknown tool name and an absent id. -/
theorem c9_unknown_tool_error_witness :
    handleMessage (constUpstream ⟨200, "", []⟩) true
        (.parsed none (some "tools/call") (some ⟨some "bogus", ⟨none, none, none⟩⟩)) =
      some (.error none (-32601) "Unknown tool: bogus" none) := by
  have h := c9_unknown_tool_error (constUpstream ⟨200, "", []⟩) true none
    ⟨none, none, none⟩ (some "bogus") (by decide) (by decide) (by decide) (by decide)
  exact h

/-- Claim C10 (confirmed): with MCP_REQUIRE_KEY set and MCP_API_KEY
unset, every upgrade attempt on /mcp and every /query request is
rejected 401 regardless of the supplied credential: the server fails
closed when its secret is missing. -/
theorem c10_fails_closed_without_secret :
    ∀ (hdr : String) (qk : Option String) (u : String → UpstreamResp)
      (d : Bool) (r c s : Option String),
    upgradeHandler "/mcp" true none hdr qk = .reject401 ∧
    queryEndpoint true none hdr u d r c s = .unauthorized "missing/invalid token" := by
  intro hdr qk u d r c s
  constructor
  · simp [upgradeHandler]
  · simp [queryEndpoint, auth]

/-- Claim C1 (counterexample): the claim says an equality filter is
applied row-by-row after rows are fetched.  With a fetched set holding
one FR row and a filter for country BE, proximus.records returns the FR
row verbatim, although the row does not match the filter and the
filtered set of the claim would be empty: no post-fetch filter exists
in the code. -/
theorem c1_no_postfetch_filter_counterexample :
    handleMessage (constUpstream ⟨200, "", [rowFR]⟩) true
        (.parsed (some (.num 1)) (some "tools/call")
          (some ⟨some "proximus.records", ⟨some "BE", none, some "10"⟩⟩)) =
      some (.result (some (.num 1)) (.recordsRes [rowFR])) ∧
    matchesFilter ⟨some "BE", none⟩ rowFR = false ∧
    List.filter (matchesFilter ⟨some "BE", none⟩) [rowFR] = [] := by
  refine ⟨rfl, by decide, by decide⟩

/-- Claim C1 (amended): no row-by-row filter runs after the fetch; the
filter is only query-encoded into the upstream request, so on identical
upstream responses the tool output is identical for every pair of
country/status filters: the fetched set is used unchanged (in
particular a filter with no fields leaves it unchanged). -/
theorem c1_filter_only_forwarded_upstream :
    ∀ (r : UpstreamResp) (id : Option JsonId) (name : Option String)
      (lim c s c2 s2 : Option String),
    (name = some "proximus.kpis" ∨ name = some "proximus.records") →
    handleMessage (constUpstream r) true
        (.parsed id (some "tools/call") (some ⟨name, ⟨c, s, lim⟩⟩)) =
      handleMessage (constUpstream r) true
        (.parsed id (some "tools/call") (some ⟨name, ⟨c2, s2, lim⟩⟩)) := by
  intro r id name lim c s c2 s2 h
  rw [handleMessage_call, handleMessage_call]
  rcases h with h | h <;> subst h <;>
    by_cases hok : respOk r.status <;>
      simp [toolsCall, fetchRows_const, hok]

/-- Witness for the amended C1 at a concrete response and filters. -/
theorem c1_filter_only_forwarded_upstream_witness :
    handleMessage (constUpstream ⟨200, "", [rowFR]⟩) true
        (.parsed none (some "tools/call")
          (some ⟨some "proximus.records", ⟨some "BE", none, none⟩⟩)) =
      handleMessage (constUpstream ⟨200, "", [rowFR]⟩) true
        (.parsed none (some "tools/call")
          (some ⟨some "proximus.records", ⟨none, some "FAILED", none⟩⟩)) :=
  c1_filter_only_forwarded_upstream ⟨200, "", [rowFR]⟩ none
    (some "proximus.records") none (some "BE") none none (some "FAILED")
    (Or.inr rfl)

/-- Claim C2 (counterexample): the claim says the caller-supplied limit
never truncates the set the KPI aggregation is computed over.  Against
an upstream that honours the limit query parameter over a five-row
table, a proximus.kpis call with limit 2 aggregates only the two
fetched rows (total 2), not the full filtered set of five: fetchRows
query-encodes the limit into the upstream request. -/
theorem c2_limit_truncates_aggregation_counterexample :
    handleMessage limitingUpstream true
        (.parsed (some (.num 1)) (some "tools/call")
          (some ⟨some "proximus.kpis", ⟨none, none, some "2"⟩⟩)) =
      some (.result (some (.num 1)) (.kpisRes (computeKpis (masterRows.take 2)))) ∧
    (computeKpis (masterRows.take 2)).total = 2 ∧
    (computeKpis masterRows).total = 5 := by
  refine ⟨rfl, rfl, rfl⟩

/-- Claim C2 (amended): the proximus.kpis branch itself applies
computeKpis to the entire fetched row set with no local slice, so the
aggregate covers every fetched row; the limit reaches the aggregation
only through the upstream fetch, which query-encodes it. -/
theorem c2_kpis_full_fetched_set :
    ∀ (u : String → UpstreamResp) (id : Option JsonId) (args : Args) (rows : List Row),
    fetchRows u true (normalizeFilters args) (asNumber args.limit 1000) = .ok rows →
    handleMessage u true (.parsed id (some "tools/call")
        (some ⟨some "proximus.kpis", args⟩)) =
      some (.result id (.kpisRes (computeKpis rows))) := by
  intro u id args rows hfetch
  rw [handleMessage_call]
  simp only [toolsCall, defaultLimit]
  simp [hfetch]

/-- Witness for the amended C2 at a concrete upstream and arguments. -/
theorem c2_kpis_full_fetched_set_witness :
    handleMessage (constUpstream ⟨200, "", masterRows⟩) true
        (.parsed (some (.num 2)) (some "tools/call")
          (some ⟨some "proximus.kpis", ⟨none, none, none⟩⟩)) =
      some (.result (some (.num 2)) (.kpisRes (computeKpis masterRows))) :=
  c2_kpis_full_fetched_set (constUpstream ⟨200, "", masterRows⟩)
    (some (.num 2)) ⟨none, none, none⟩ masterRows rfl

/-- Claim C3 (counterexample): the claim says the diagnostic detail of
the error carries both the upstream status code and its body text in
both variants.  In the non-RPC variant an upstream 503 with body oops
yields a fixed 502 whose details field is exactly the body text, which
does not contain the digits 503: the upstream status code is absent
from the detail. -/
theorem c3_http_detail_lacks_status_counterexample :
    queryHandler (constUpstream ⟨503, "oops", []⟩) true (some "kpis") none none =
      .err 502 "upstream demo error" (some "oops") ∧
    strContains "oops" "503" = false := by
  refine ⟨rfl, by decide⟩

/-- Claim C3 (amended): a non-2xx upstream response is never treated as
rows: the WS variant answers with the internal error code -32000 whose
data string is exactly `Demo upstream <status>: <body>` (both status
and body present), and the non-RPC variant answers 502 with error
`upstream demo error` and the upstream body text alone as details; in
both variants no row data is produced, and the WS handler sends this
as an ordinary response without closing the connection. -/
theorem c3_upstream_error_reported :
    ∀ (r : UpstreamResp) (id : Option JsonId) (args : Args) (name : Option String)
      (res : String) (c s : Option String),
    ¬ respOk r.status →
    (name = some "proximus.kpis" ∨ name = some "proximus.records") →
    res ≠ "" →
    handleMessage (constUpstream r) true
        (.parsed id (some "tools/call") (some ⟨name, args⟩)) =
      some (.error id (-32000) "Internal error"
        (some ("Demo upstream " ++ toString r.status ++ ": " ++ r.body))) ∧
    queryHandler (constUpstream r) true (some res) c s =
      .err 502 "upstream demo error" (some r.body) := by
  intro r id args name res c s hok hname hres
  constructor
  · rw [handleMessage_call]
    rcases hname with h | h <;> subst h <;> simp [toolsCall, fetchRows_const, hok]
  · simp [queryHandler, constUpstream, hres, hok]

/-- Witness for the amended C3 at an upstream 500 with body boom. -/
theorem c3_upstream_error_reported_witness :
    handleMessage (constUpstream ⟨500, "boom", []⟩) true
        (.parsed (some (.num 3)) (some "tools/call")
          (some ⟨some "proximus.kpis", ⟨none, none, none⟩⟩)) =
      some (.error (some (.num 3)) (-32000) "Internal error"
        (some "Demo upstream 500: boom")) ∧
    queryHandler (constUpstream ⟨500, "boom", []⟩) true (some "records") none none =
      .err 502 "upstream demo error" (some "boom") := by
  have h := c3_upstream_error_reported ⟨500, "boom", []⟩ (some (.num 3))
    ⟨none, none, none⟩ (some "proximus.kpis") "records" none none
    (by decide) (Or.inl rfl) (by decide)
  exact h

/-- Claim C4 (counterexample): the claim says a request whose token
does not match the secret is rejected with an unauthorized status.  In
the HTTP variant a supplied bearer token whose length differs from the
secret makes crypto.timingSafeEqual throw inside the middleware, so the
/query request ends in a 500 server error, not a 401. -/
theorem c4_length_mismatch_throws_counterexample :
    auth true (some "s3cret") "Bearer abc" = .thrown ∧
    queryEndpoint true (some "s3cret") "Bearer abc"
        (constUpstream ⟨200, "", []⟩) true (some "kpis") none none =
      .serverError := by
  refine ⟨rfl, rfl⟩

/-- Claim C4 (amended): with a key required and a secret configured,
the WS upgrade gate takes the token from the bearer header or the key
query parameter and rejects any absent or mismatching token with 401
before the connection is established, accepting exactly matching
non-empty tokens; the HTTP middleware takes the token only from the
bearer header, answers 401 when the token is absent or when it
mismatches the secret at equal byte length, but a supplied token whose
byte length differs from the secret makes crypto.timingSafeEqual throw,
surfacing as a 500 rather than 401; in every rejecting case the
request handler, and hence any tool, never runs. -/
theorem c4_auth_gate_behaviour :
    (∀ (key : String) (hdr : String) (qk : Option String),
      wsToken hdr qk ≠ key →
      upgradeHandler "/mcp" true (some key) hdr qk = .reject401) ∧
    (∀ (key : String) (hdr : String) (qk : Option String),
      key ≠ "" → wsToken hdr qk = key →
      upgradeHandler "/mcp" true (some key) hdr qk = .accept) ∧
    (∀ (key : Option String) (hdr : String),
      httpToken hdr = "" → auth true key hdr = .unauthorized "missing/invalid token") ∧
    (∀ (key : String) (hdr : String),
      httpToken hdr ≠ "" → (httpToken hdr).length = key.length →
      httpToken hdr ≠ key → auth true (some key) hdr = .unauthorized "unauthorized") ∧
    (∀ (key : String) (hdr : String),
      httpToken hdr ≠ "" → (httpToken hdr).length ≠ key.length →
      auth true (some key) hdr = .thrown) := by
  refine ⟨?_, ?_, ?_, ?_, ?_⟩
  · intro key hdr qk h
    simp [upgradeHandler, Ne.symm h]
  · intro key hdr qk hkey htok
    simp [upgradeHandler, htok, hkey]
  · intro key hdr h
    simp [auth, h]
  · intro key hdr h1 h2 h3
    have hb : (httpToken hdr == key) = false := beq_eq_false_iff_ne.mpr h3
    simp [auth, timingSafeEqualJs, h1, h2, hb]
  · intro key hdr h1 h2
    simp [auth, timingSafeEqualJs, h1, h2]

/-- Witness for the amended C4, exercising all five cases at concrete
tokens. -/
theorem c4_auth_gate_behaviour_witness :
    upgradeHandler "/mcp" true (some "secret") "" none = .reject401 ∧
    upgradeHandler "/mcp" true (some "secret") "" (some "secret") = .accept ∧
    auth true (some "secret") "" = .unauthorized "missing/invalid token" ∧
    auth true (some "abc") "Bearer abd" = .unauthorized "unauthorized" ∧
    auth true (some "s3cret") "Bearer abc" = .thrown :=
  ⟨c4_auth_gate_behaviour.1 "secret" "" none (by decide),
   c4_auth_gate_behaviour.2.1 "secret" "" (some "secret") (by decide) (by decide),
   c4_auth_gate_behaviour.2.2.1 (some "secret") "" (by decide),
   c4_auth_gate_behaviour.2.2.2.1 "abc" "Bearer abd" (by decide) (by decide) (by decide),
   c4_auth_gate_behaviour.2.2.2.2 "s3cret" "Bearer abc" (by decide) (by decide)⟩

/-- Claim C6 (counterexample): the claim says the effective limit is
always a usable positive integer, defaulted or clamped.  A supplied
limit of -5 parses to -5 and is used as is: nothing clamps it to a
positive value. -/
theorem c6_negative_limit_counterexample :
    asNumber (some "-5") 200 = -5 ∧ ¬ ((0 : Int) < -5) := by
  refine ⟨by decide, by decide⟩

/-- Claim C6 (amended): a missing or non-numeric limit is replaced by
the default, 1000 for proximus.kpis and 200 for any other tool, and
both defaults are positive; a numeric limit is used exactly as parseInt
returns it, with no clamping. -/
theorem c6_limit_defaulting :
    ∀ (d : Int) (s : String) (name : Option String) (n : Int),
    asNumber none d = d ∧
    (jsParseInt s = none → asNumber (some s) d = d) ∧
    (jsParseInt s = some n → asNumber (some s) d = n) ∧
    defaultLimit (some "proximus.kpis") = 1000 ∧
    (name ≠ some "proximus.kpis" → defaultLimit name = 200) ∧
    0 < defaultLimit name := by
  intro d s name n
  refine ⟨rfl, ?_, ?_, rfl, ?_, ?_⟩
  · intro h; simp [asNumber, h]
  · intro h; simp [asNumber, h]
  · intro h; simp [defaultLimit, h]
  · unfold defaultLimit
    split <;> norm_num

/-- Witness for the amended C6: a non-numeric limit falls back to the
default, a numeric one is parsed, and the records default is positive. -/
theorem c6_limit_defaulting_witness :
    asNumber (some "abc") 200 = 200 ∧
    asNumber (some "2") 1000 = 2 ∧
    defaultLimit (some "bogus") = 200 :=
  ⟨(c6_limit_defaulting 200 "abc" none 0).2.1 (by decide),
   (c6_limit_defaulting 1000 "2" none 2).2.2.1 (by decide),
   (c6_limit_defaulting 0 "" (some "bogus") 0).2.2.2.2.1 (by decide)⟩
